import Mathlib

/-!
Verification of the navigate-connector fetch-and-export pipeline.

This file shallowly embeds the pipeline of `get_appointments.py` together with
the fetch method `NavigateAPI.get_appointments` of
`navigate_connector/navigate_api.py`, and proves the documented properties of
the partitioning loop, the record projection, the CSV export and the per-day
error handling.

Modelling conventions:
* `datetime` values are integers counting seconds; `timedelta(days=1)` is
  `oneDay = 86400`.
* A Python `dict.get(k)` access on an optional field is an `Option`; a missing
  key is `none`.  Field values that the code merely copies through (ids,
  locations, flags, timestamps, ...) are modelled as `String`s.
* File-system effects are modelled by returning the written file as a
  `(path, rows)` pair; `logging` calls are modelled by an explicit list of
  `LogEvent`s, recorded in program order.
* Python truthiness of `None` / a list (`if response:`) is `pyTruthyList`;
  truthiness of an optional string is `pyTruthyStr`.
* The thread pool of `main` runs every submitted task to completion and the
  tasks share no mutable state, so the run is modelled as the list of per-day
  results in submission order.
-/

/-- The `organizer` sub-dictionary of a raw appointment record. -/
structure Organizer where
  primary_id : Option String
  deriving DecidableEq

/-- One entry of the `attendees` list of a raw appointment record. -/
structure Attendee where
  primary_id : Option String
  deriving DecidableEq

/-- A raw appointment record as returned by the API: every field access in the
code is optional (`.get`), so every field is an `Option`. -/
structure RawRecord where
  id : Option String
  location : Option String
  organizer : Option Organizer
  type : Option String
  start_time : Option String
  scheduled_student_services : Option String
  is_no_show : Option String
  is_cancelled : Option String
  attendees : Option (List Attendee)
  deriving DecidableEq

/-- The flat row built for each appointment (the dictionary appended to
`extracted_data` in `extract_appointment_data`). -/
structure FlatRow where
  appointment_id : Option String
  location : Option String
  organizer_primary_id : Option String
  appointment_type : Option String
  start_time : Option String
  scheduled_student_services : Option String
  is_no_show : Option String
  is_cancelled : Option String
  attendees_primary_ids : String
  deriving DecidableEq

/-- Loop body of `extract_appointment_data` (`get_appointments.py` lines
38-64): `appointment.get('organizer', {}).get('primary_id')` is a lookup with
the empty dictionary as default, and the attendee comprehension keeps, in
order, the `primary_id` of exactly those attendees that have one. -/
def extract_one_appointment (appointment : RawRecord) : FlatRow :=
  let attendees := appointment.attendees.getD []
  { appointment_id := appointment.id
    location := appointment.location
    organizer_primary_id := (appointment.organizer.getD { primary_id := none }).primary_id
    appointment_type := appointment.type
    start_time := appointment.start_time
    scheduled_student_services := appointment.scheduled_student_services
    is_no_show := appointment.is_no_show
    is_cancelled := appointment.is_cancelled
    attendees_primary_ids := String.intercalate "," (attendees.filterMap Attendee.primary_id) }

/-- `extract_appointment_data` (`get_appointments.py` lines 34-66): the for
loop appends one flat row per raw record, i.e. it maps the loop body over the
input list. -/
def extract_appointment_data (appointments : List RawRecord) : List FlatRow :=
  appointments.map extract_one_appointment

/-- Python `date_string.replace('/', '_')` for the single characters used by
`export_to_csv`: replace every slash of the string by an underscore. -/
def replaceSlash (s : String) : String :=
  ⟨s.data.map fun c => if c = '/' then '_' else c⟩

/-- The filename `f"apmts_{safe_start_date}_{safe_end_date}.csv"` computed by
`export_to_csv` (`get_appointments.py` lines 70-82). -/
def export_filename (start_date end_date : String) : String :=
  "apmts_" ++ replaceSlash start_date ++ "_" ++ replaceSlash end_date ++ ".csv"

/-- `export_to_csv` (`get_appointments.py` lines 68-87): the written file,
modelled as its full path (`os.path.join(save_dir, filename)`) together with
the rows serialized into it.  The Python default for `save_dir` is
`'data/appointments'`; callers of this model pass it explicitly. -/
def export_to_csv (data : List FlatRow) (start_date end_date : String)
    (save_dir : String) : String × List FlatRow :=
  (save_dir ++ "/" ++ export_filename start_date end_date, data)

/-- One `logging` call of the per-day pipeline, with the interpolated
arguments of the corresponding f-string. -/
inductive LogEvent where
  | infoStart (start_date end_date : String)
  | infoSuccess (start_date end_date : String)
  | infoExported (path : String)
  | infoNoAppointments (start_date end_date : String)
  | infoEmptyList (start_date end_date : String)
  | errorApiCall (start_date end_date msg : String)
  deriving DecidableEq

/-- Outcome of one call of the fetch capability
(`connector.get_appointments(...)`): the call either returns a value — `None`
or a list of records — or raises an exception. -/
inductive FetchOutcome where
  | ret (response : Option (List RawRecord))
  | exn (msg : String)
  deriving DecidableEq

/-- Result of one `get_and_export_appointments_for_date` call: the artifact
file written for the day (if any) and the log lines emitted, in order. -/
structure DayResult where
  file : Option (String × List FlatRow)
  logs : List LogEvent
  deriving DecidableEq

/-- Python truthiness of `response` when it is `None` or a list:
`None` and `[]` are falsy, a non-empty list is truthy. -/
def pyTruthyList {α : Type} : Option (List α) → Bool
  | none => false
  | some l => !l.isEmpty

/-- Python truthiness of an optional string: `None` and `''` are falsy. -/
def pyTruthyStr : Option String → Bool
  | none => false
  | some s => !s.isEmpty

/-- `get_and_export_appointments_for_date` (`get_appointments.py` lines
89-111).  The whole body runs inside `try/except Exception`; in this model the
only failing operation is the fetch itself, so the `except` branch is the
`FetchOutcome.exn` case.  `if response:` is Python truthiness: `None` and the
empty list both take the `else` branch. -/
def get_and_export_appointments_for_date
    (fetch : String → String → FetchOutcome)
    (start_date end_date : String) : DayResult :=
  match fetch start_date end_date with
  | FetchOutcome.ret response =>
      if pyTruthyList response then
        let extracted_data := extract_appointment_data (response.getD [])
        if extracted_data.isEmpty then
          { file := none
            logs := [LogEvent.infoStart start_date end_date,
                     LogEvent.infoSuccess start_date end_date,
                     LogEvent.infoNoAppointments start_date end_date] }
        else
          let written := export_to_csv extracted_data start_date end_date "data/appointments"
          { file := some written
            logs := [LogEvent.infoStart start_date end_date,
                     LogEvent.infoSuccess start_date end_date,
                     LogEvent.infoExported written.1] }
      else
        { file := none
          logs := [LogEvent.infoStart start_date end_date,
                   LogEvent.infoEmptyList start_date end_date] }
  | FetchOutcome.exn msg =>
      { file := none
        logs := [LogEvent.infoStart start_date end_date,
                 LogEvent.errorApiCall start_date end_date msg] }

/-- `timedelta(days=1)`, in seconds. -/
def oneDay : Int := 86400

/-- The partitioning loop of `main` (`get_appointments.py` lines 137-150):
`while start_date < end_date:` emit the one-day range
`(start_date, start_date + timedelta(days=1))` and advance the cursor by one
day. -/
def partitions (start_date end_date : Int) : List (Int × Int) :=
  if _h : start_date < end_date then
    (start_date, start_date + oneDay) :: partitions (start_date + oneDay) end_date
  else
    []
termination_by (end_date - start_date).toNat
decreasing_by
  simp only [oneDay]
  omega

/-- The scheduler of `main` (`get_appointments.py` lines 134-159): one
`get_and_export_appointments_for_date` task per emitted partition, with both
bounds formatted by `strftime("%m/%d/%Y")` (an external library function,
passed here as a parameter).  The thread pool runs every task to completion
and the tasks are independent, so the run is the list of day results in
submission order. -/
def scheduler_run (fetch : String → String → FetchOutcome)
    (strftime : Int → String) (start_date end_date : Int) : List DayResult :=
  (partitions start_date end_date).map fun p =>
    get_and_export_appointments_for_date fetch (strftime p.1) (strftime p.2)

/-- The credential state of a `NavigateAPI` instance: `self.username` and
`self.api_key`, each possibly unset. -/
structure NavigateAPI where
  username : Option String
  api_key : Option String
  deriving DecidableEq

/-- Outcome of the underlying `requests.get(...)` call together with
`response.raise_for_status()`: either a parsed JSON body or a raised
`requests.RequestException` (connection error, auth failure, HTTP error
status). -/
inductive HttpResult where
  | json (body : List RawRecord)
  | reqError (msg : String)
  deriving DecidableEq

/-- `NavigateAPI.get_appointments` (`navigate_api.py` lines 692-734): if the
credentials are not loaded the method returns `None`; otherwise it performs
the request and returns the JSON body, and any `requests.RequestException` is
caught and turned into `None`. -/
def NavigateAPI.get_appointments (self : NavigateAPI) (http : HttpResult) :
    Option (List RawRecord) :=
  if !pyTruthyStr self.username || !pyTruthyStr self.api_key then
    none
  else
    match http with
    | HttpResult.json body => some body
    | HttpResult.reqError _ => none

/-- Recognizer for the `"No appointments found ..."` log line. -/
def is_no_appointments_event : LogEvent → Bool
  | LogEvent.infoNoAppointments _ _ => true
  | _ => false

/-- Recognizer for the `logging.error` line of the per-day pipeline. -/
def is_error_event : LogEvent → Bool
  | LogEvent.errorApiCall _ _ _ => true
  | _ => false

/-- A raw record with every optional field missing. -/
def emptyRecord : RawRecord :=
  { id := none, location := none, organizer := none, type := none,
    start_time := none, scheduled_student_services := none, is_no_show := none,
    is_cancelled := none, attendees := none }

/-- A raw record whose `organizer` dictionary is present but lacks
`primary_id`. -/
def orgNullRecord : RawRecord :=
  { emptyRecord with organizer := some { primary_id := none } }

/-- The record of spec property P4: attendees `A`, `B` and one entry without a
`primary_id`. -/
def p4Record : RawRecord :=
  { emptyRecord with
    attendees := some [{ primary_id := some "A" }, { primary_id := some "B" },
                       { primary_id := none }] }

/-- A record with duplicated, unsorted attendee ids. -/
def dupRecord : RawRecord :=
  { emptyRecord with
    attendees := some [{ primary_id := some "B" }, { primary_id := some "A" },
                       { primary_id := some "B" }] }

/-- A concrete `strftime` stand-in used for concrete runs. -/
def sampleStrftime : Int → String :=
  fun t => if t = 0 then "a" else if t = 86400 then "b" else "c"

/-- A fetch capability that raises exactly on the day starting at `"a"`. -/
def sampleFetchFail : String → String → FetchOutcome :=
  fun a _ => if a = "a" then FetchOutcome.exn "boom" else FetchOutcome.ret none

/-- A fetch capability that always returns `None`. -/
def sampleFetchOk : String → String → FetchOutcome :=
  fun _ _ => FetchOutcome.ret none

/-- A fetch capability that always returns one fixed record. -/
def sampleFetchData : String → String → FetchOutcome :=
  fun _ _ => FetchOutcome.ret (some [emptyRecord])

/-! ### Helper lemmas about the partitioning loop -/

/-- One unfolding of the `while start_date < end_date` loop. -/
theorem partitions_step (s e : Int) :
    partitions s e =
      if s < e then (s, s + oneDay) :: partitions (s + oneDay) e else [] := by
  rw [partitions]
  simp

/-- Closed form of the i-th emitted partition. -/
theorem partitions_get? (s e : Int) (i : Nat) :
    (partitions s e)[i]? =
      if s + (i : Int) * oneDay < e then
        some (s + (i : Int) * oneDay, s + ((i : Int) + 1) * oneDay)
      else none := by
  induction s, e using partitions.induct generalizing i with
  | case1 s e h ih =>
    rw [partitions_step, if_pos h]
    cases i with
    | zero => simp [h]
    | succ n =>
      rw [List.getElem?_cons_succ, ih n]
      have e1 : s + ((n + 1 : Nat) : Int) * oneDay = s + oneDay + (n : Int) * oneDay := by
        push_cast
        ring
      have e2 : s + (((n + 1 : Nat) : Int) + 1) * oneDay
          = s + oneDay + ((n : Int) + 1) * oneDay := by
        push_cast
        ring
      rw [e1, e2]
  | case2 s e h =>
    rw [partitions_step, if_neg h, List.getElem?_nil, if_neg]
    simp only [oneDay]
    omega

/-- The loop emits exactly the partitions whose start lies before the overall
end. -/
theorem partitions_lt_length_iff (s e : Int) (i : Nat) :
    i < (partitions s e).length ↔ s + (i : Int) * oneDay < e := by
  constructor
  · intro hi
    by_contra hc
    have h := partitions_get? s e i
    rw [if_neg hc, List.getElem?_eq_none_iff] at h
    omega
  · intro hlt
    have h := partitions_get? s e i
    rw [if_pos hlt, List.getElem?_eq_some] at h
    exact h.1

/-- Value of the i-th emitted partition, `List.get` form. -/
theorem partitions_get (s e : Int) (i : Nat) (hi : i < (partitions s e).length) :
    (partitions s e).get ⟨i, hi⟩ = (s + (i : Int) * oneDay, s + ((i : Int) + 1) * oneDay) := by
  have h := partitions_get? s e i
  rw [if_pos ((partitions_lt_length_iff s e i).mp hi), List.getElem?_eq_getElem hi] at h
  rw [List.get_eq_getElem]
  exact Option.some.inj h

/-! ### Claims about the partitioning loop -/

/-- Claim C1: for every overall date range with start < end, the scheduler's
partitioning loop emits consecutive one-day sub-ranges — the i-th partition is
[start + i*oneDay, start + (i+1)*oneDay), so the first starts at the overall
start and each partition begins where the previous one ends — they cover
[start, end) with no gaps and no overlap (every instant of the overall range
lies in exactly one partition), and the last partition's end is at least the
overall end but exceeds it by less than one day. -/
theorem partitions_cover_range (s e : Int) (h : s < e) :
    partitions s e ≠ [] ∧
    (∀ i, (hi : i < (partitions s e).length) →
        (partitions s e).get ⟨i, hi⟩
          = (s + (i : Int) * oneDay, s + ((i : Int) + 1) * oneDay)) ∧
    e ≤ s + ((partitions s e).length : Int) * oneDay ∧
    s + ((partitions s e).length : Int) * oneDay < e + oneDay ∧
    (∀ t : Int, s ≤ t → t < e →
        ∃ i, ∃ hi : i < (partitions s e).length,
          ((partitions s e).get ⟨i, hi⟩).1 ≤ t ∧ t < ((partitions s e).get ⟨i, hi⟩).2) ∧
    (∀ t : Int, ∀ i j, (hi : i < (partitions s e).length) →
        (hj : j < (partitions s e).length) →
        ((partitions s e).get ⟨i, hi⟩).1 ≤ t → t < ((partitions s e).get ⟨i, hi⟩).2 →
        ((partitions s e).get ⟨j, hj⟩).1 ≤ t → t < ((partitions s e).get ⟨j, hj⟩).2 →
        i = j) := by
  have hlen := partitions_lt_length_iff s e
  have hget := partitions_get s e
  have h0 : 0 < (partitions s e).length := by
    rw [hlen 0]
    simp only [oneDay] at h ⊢
    omega
  have hub : ¬ (s + ((partitions s e).length : Int) * oneDay < e) := by
    intro hc
    exact lt_irrefl _ ((hlen _).mpr hc)
  have hlb : s + (((partitions s e).length - 1 : Nat) : Int) * oneDay < e :=
    (hlen _).mp (by omega)
  refine ⟨List.length_pos.mp h0, hget, ?_, ?_, ?_, ?_⟩
  · simp only [oneDay] at hub ⊢
    omega
  · simp only [oneDay] at hlb ⊢
    omega
  · intro t hts hte
    have hi : ((t - s) / oneDay).toNat < (partitions s e).length := by
      rw [hlen]
      simp only [oneDay] at hte hts ⊢
      omega
    refine ⟨_, hi, ?_, ?_⟩ <;> rw [hget _ hi] <;> dsimp only <;>
      simp only [oneDay] at hts hte ⊢ <;> omega
  · intro t i j hi hj h1 h2 h3 h4
    rw [hget i hi] at h1 h2
    rw [hget j hj] at h3 h4
    dsimp only at h1 h2 h3 h4
    simp only [oneDay] at h1 h2 h3 h4
    omega

/-- Concrete instance of the partition-coverage claim at the range
[0, 86400). -/
theorem partitions_cover_range_witness :
    (0 : Int) < 86400 ∧
    (partitions 0 86400 ≠ [] ∧
     (∀ i, (hi : i < (partitions 0 86400).length) →
         (partitions 0 86400).get ⟨i, hi⟩
           = (0 + (i : Int) * oneDay, 0 + ((i : Int) + 1) * oneDay)) ∧
     (86400 : Int) ≤ 0 + ((partitions 0 86400).length : Int) * oneDay ∧
     0 + ((partitions 0 86400).length : Int) * oneDay < 86400 + oneDay ∧
     (∀ t : Int, 0 ≤ t → t < 86400 →
         ∃ i, ∃ hi : i < (partitions 0 86400).length,
           ((partitions 0 86400).get ⟨i, hi⟩).1 ≤ t ∧
             t < ((partitions 0 86400).get ⟨i, hi⟩).2) ∧
     (∀ t : Int, ∀ i j, (hi : i < (partitions 0 86400).length) →
         (hj : j < (partitions 0 86400).length) →
         ((partitions 0 86400).get ⟨i, hi⟩).1 ≤ t →
         t < ((partitions 0 86400).get ⟨i, hi⟩).2 →
         ((partitions 0 86400).get ⟨j, hj⟩).1 ≤ t →
         t < ((partitions 0 86400).get ⟨j, hj⟩).2 →
         i = j)) :=
  ⟨by decide, partitions_cover_range 0 86400 (by decide)⟩

/-- Claim C9: when both bounds are midnight-aligned (multiples of one day), as
the CLI's mm/dd/yyyy parsing guarantees, the range length is a whole number of
days: the number of partitions — and hence of submitted day tasks — equals
that day count, and the last partition's end equals the overall end
exactly. -/
theorem aligned_range_exact_partitions (s e : Int)
    (hs : oneDay ∣ s) (he : oneDay ∣ e) (h : s < e) :
    ((partitions s e).length : Int) = (e - s) / oneDay ∧
    (∀ p, (partitions s e).getLast? = some p → p.2 = e) ∧
    (∀ (fetch : String → String → FetchOutcome) (strftime : Int → String),
        (scheduler_run fetch strftime s e).length = (partitions s e).length) := by
  have hlen := partitions_lt_length_iff s e
  have h0 : 0 < (partitions s e).length := by
    rw [hlen 0]
    simp only [oneDay] at h ⊢
    omega
  have hub : ¬ (s + ((partitions s e).length : Int) * oneDay < e) := by
    intro hc
    exact lt_irrefl _ ((hlen _).mpr hc)
  have hlb : s + (((partitions s e).length - 1 : Nat) : Int) * oneDay < e :=
    (hlen _).mp (by omega)
  obtain ⟨a, ha⟩ := hs
  obtain ⟨b, hb⟩ := he
  refine ⟨?_, ?_, ?_⟩
  · simp only [oneDay] at hub hlb ha hb ⊢
    omega
  · intro p hp
    rw [List.getLast?_eq_getElem?,
      partitions_get? s e ((partitions s e).length - 1), if_pos hlb] at hp
    have hpe := Option.some.inj hp
    subst hpe
    dsimp only
    simp only [oneDay] at hub hlb ha hb ⊢
    omega
  · intro fetch strftime
    exact List.length_map _ _

/-- Concrete instance of the aligned-range claim at the two-day range
[0, 172800). -/
theorem aligned_range_exact_partitions_witness :
    oneDay ∣ (0 : Int) ∧ oneDay ∣ (172800 : Int) ∧ (0 : Int) < 172800 ∧
    (((partitions 0 172800).length : Int) = (172800 - 0) / oneDay ∧
     (∀ p, (partitions 0 172800).getLast? = some p → p.2 = 172800) ∧
     (∀ (fetch : String → String → FetchOutcome) (strftime : Int → String),
         (scheduler_run fetch strftime 0 172800).length
           = (partitions 0 172800).length)) :=
  ⟨⟨0, rfl⟩, ⟨2, rfl⟩, by decide,
   aligned_range_exact_partitions 0 172800 ⟨0, rfl⟩ ⟨2, rfl⟩ (by decide)⟩

/-! ### Claims about the record projection and the CSV export -/

/-- Claim C4: the projection never fails on records with missing fields — the
embedding is a total function, and each missing top-level scalar as well as a
missing organizer or a present organizer without primary_id projects to the
null placeholder `none`, while a missing attendees list joins to the empty
string. -/
theorem projection_total_on_missing_fields (r : RawRecord) :
    (r.id = none → (extract_one_appointment r).appointment_id = none) ∧
    (r.location = none → (extract_one_appointment r).location = none) ∧
    (r.type = none → (extract_one_appointment r).appointment_type = none) ∧
    (r.start_time = none → (extract_one_appointment r).start_time = none) ∧
    (r.scheduled_student_services = none →
        (extract_one_appointment r).scheduled_student_services = none) ∧
    (r.is_no_show = none → (extract_one_appointment r).is_no_show = none) ∧
    (r.is_cancelled = none → (extract_one_appointment r).is_cancelled = none) ∧
    (r.organizer = none → (extract_one_appointment r).organizer_primary_id = none) ∧
    (∀ o, r.organizer = some o → o.primary_id = none →
        (extract_one_appointment r).organizer_primary_id = none) ∧
    (r.attendees = none → (extract_one_appointment r).attendees_primary_ids = "") := by
  refine ⟨fun h => by simp [extract_one_appointment, h],
    fun h => by simp [extract_one_appointment, h],
    fun h => by simp [extract_one_appointment, h],
    fun h => by simp [extract_one_appointment, h],
    fun h => by simp [extract_one_appointment, h],
    fun h => by simp [extract_one_appointment, h],
    fun h => by simp [extract_one_appointment, h],
    fun h => by simp [extract_one_appointment, h],
    fun o ho hpo => by simp [extract_one_appointment, ho, hpo],
    fun h => by simp [extract_one_appointment, h, String.intercalate]⟩

/-- Concrete instances of the projection-totality claim: the record with
every field missing projects to all-null fields and an empty attendee string,
and a record whose organizer lacks a primary_id projects it to null. -/
theorem projection_total_on_missing_fields_witness :
    (extract_one_appointment emptyRecord).appointment_id = none ∧
    (extract_one_appointment emptyRecord).location = none ∧
    (extract_one_appointment emptyRecord).appointment_type = none ∧
    (extract_one_appointment emptyRecord).start_time = none ∧
    (extract_one_appointment emptyRecord).scheduled_student_services = none ∧
    (extract_one_appointment emptyRecord).is_no_show = none ∧
    (extract_one_appointment emptyRecord).is_cancelled = none ∧
    (extract_one_appointment emptyRecord).organizer_primary_id = none ∧
    (extract_one_appointment orgNullRecord).organizer_primary_id = none ∧
    (extract_one_appointment emptyRecord).attendees_primary_ids = "" :=
  ⟨(projection_total_on_missing_fields emptyRecord).1 rfl,
   (projection_total_on_missing_fields emptyRecord).2.1 rfl,
   (projection_total_on_missing_fields emptyRecord).2.2.1 rfl,
   (projection_total_on_missing_fields emptyRecord).2.2.2.1 rfl,
   (projection_total_on_missing_fields emptyRecord).2.2.2.2.1 rfl,
   (projection_total_on_missing_fields emptyRecord).2.2.2.2.2.1 rfl,
   (projection_total_on_missing_fields emptyRecord).2.2.2.2.2.2.1 rfl,
   (projection_total_on_missing_fields emptyRecord).2.2.2.2.2.2.2.1 rfl,
   (projection_total_on_missing_fields orgNullRecord).2.2.2.2.2.2.2.2.1
     { primary_id := none } rfl rfl,
   (projection_total_on_missing_fields emptyRecord).2.2.2.2.2.2.2.2.2 rfl⟩

/-- Claim C5: attendees_primary_ids filters out the attendee entries lacking a
primary_id, keeps the remaining ids in their original order — no
deduplication, no sorting — and joins them with a comma; in particular the P4
record projects to "A,B" and a record with duplicated unsorted ids projects to
"B,A,B". -/
theorem attendees_join_order :
    (∀ r : RawRecord, (extract_one_appointment r).attendees_primary_ids
        = String.intercalate "," ((r.attendees.getD []).filterMap Attendee.primary_id)) ∧
    (extract_appointment_data [p4Record]).map FlatRow.attendees_primary_ids = ["A,B"] ∧
    (extract_appointment_data [dupRecord]).map FlatRow.attendees_primary_ids = ["B,A,B"] :=
  ⟨fun _ => rfl, by decide, by decide⟩

/-- Claim C6: the path written by export_to_csv depends only on the date range
and the base directory, never on the row content, and on the range
03/01/2024 - 03/02/2024 it is dir/apmts_03_01_2024_03_02_2024.csv for any base
directory dir. -/
theorem export_path_depends_only_on_range :
    (∀ (d1 d2 : List FlatRow) (s e dir : String),
        (export_to_csv d1 s e dir).1 = (export_to_csv d2 s e dir).1) ∧
    (∀ (data : List FlatRow) (dir : String),
        (export_to_csv data "03/01/2024" "03/02/2024" dir).1
          = dir ++ "/" ++ "apmts_03_01_2024_03_02_2024.csv") := by
  refine ⟨fun _ _ _ _ _ => rfl, fun data dir => ?_⟩
  simp [export_to_csv, export_filename, replaceSlash]

/-- Claim C7: the projection returns exactly one output row per input record:
the output length equals the input length and the i-th output row is the
projection of the i-th input record. -/
theorem projection_preserves_length_order (appointments : List RawRecord) :
    (extract_appointment_data appointments).length = appointments.length ∧
    ∀ i, (hi : i < appointments.length) →
      (extract_appointment_data appointments)[i]?
        = some (extract_one_appointment (appointments.get ⟨i, hi⟩)) := by
  refine ⟨List.length_map _ _, ?_⟩
  intro i hi
  simp only [extract_appointment_data]
  rw [List.getElem?_map, List.getElem?_eq_getElem hi]
  rfl

/-- Concrete instance of the length/order preservation claim on a one-record
input. -/
theorem projection_preserves_length_order_witness :
    (extract_appointment_data [emptyRecord]).length = [emptyRecord].length ∧
    (extract_appointment_data [emptyRecord])[0]?
      = some (extract_one_appointment emptyRecord) :=
  ⟨(projection_preserves_length_order [emptyRecord]).1,
   (projection_preserves_length_order [emptyRecord]).2 0 (by decide)⟩

/-! ### Claims about the per-day pipeline and the scheduler -/

/-- Claim C2: for a daily range, an artifact file is created iff the
projection of the fetch result yields at least one row; a failed fetch or an
empty fetch result produces no file, and a created file is never empty. -/
theorem artifact_iff_projected_rows
    (fetch : String → String → FetchOutcome) (s e : String) :
    (∀ msg, fetch s e = FetchOutcome.exn msg →
        (get_and_export_appointments_for_date fetch s e).file = none) ∧
    (fetch s e = FetchOutcome.ret none →
        (get_and_export_appointments_for_date fetch s e).file = none) ∧
    (∀ records, fetch s e = FetchOutcome.ret (some records) →
        ((get_and_export_appointments_for_date fetch s e).file.isSome
          ↔ extract_appointment_data records ≠ [])) ∧
    (∀ path rows,
        (get_and_export_appointments_for_date fetch s e).file = some (path, rows) →
        rows ≠ []) := by
  refine ⟨?_, ?_, ?_, ?_⟩
  · intro msg hf
    simp [get_and_export_appointments_for_date, hf]
  · intro hf
    simp [get_and_export_appointments_for_date, hf, pyTruthyList]
  · intro records hf
    cases records with
    | nil =>
      simp [get_and_export_appointments_for_date, hf, pyTruthyList,
        extract_appointment_data]
    | cons r rs =>
      simp [get_and_export_appointments_for_date, hf, pyTruthyList,
        extract_appointment_data, export_to_csv]
  · intro path rows hfile
    rcases hf : fetch s e with response | msg
    · rcases response with _ | records
      · simp [get_and_export_appointments_for_date, hf, pyTruthyList] at hfile
      · cases records with
        | nil =>
          simp [get_and_export_appointments_for_date, hf, pyTruthyList] at hfile
        | cons r rs =>
          simp [get_and_export_appointments_for_date, hf, pyTruthyList,
            extract_appointment_data, export_to_csv] at hfile
          rcases hfile with ⟨hpath, hrows⟩
          rw [← hrows]
          simp
    · simp [get_and_export_appointments_for_date, hf] at hfile

/-- Concrete instances of the artifact invariant: a raising fetch and a
`None`-returning fetch produce no file, a one-record fetch produces a file iff
its projection is non-empty, and the written rows are non-empty. -/
theorem artifact_iff_projected_rows_witness :
    (get_and_export_appointments_for_date sampleFetchFail "a" "b").file = none ∧
    (get_and_export_appointments_for_date sampleFetchOk "a" "b").file = none ∧
    ((get_and_export_appointments_for_date sampleFetchData "a" "b").file.isSome
      ↔ extract_appointment_data [emptyRecord] ≠ []) ∧
    extract_appointment_data [emptyRecord] ≠ [] :=
  ⟨(artifact_iff_projected_rows sampleFetchFail "a" "b").1 "boom" rfl,
   (artifact_iff_projected_rows sampleFetchOk "a" "b").2.1 rfl,
   (artifact_iff_projected_rows sampleFetchData "a" "b").2.2.1 [emptyRecord] rfl,
   (artifact_iff_projected_rows sampleFetchData "a" "b").2.2.2
     (export_to_csv (extract_appointment_data [emptyRecord]) "a" "b" "data/appointments").1
     (extract_appointment_data [emptyRecord]) rfl⟩

/-- The day fetcher consults the fetch capability only at its own bounds. -/
theorem get_and_export_congr (f g : String → String → FetchOutcome) (s e : String)
    (h : f s e = g s e) :
    get_and_export_appointments_for_date f s e
      = get_and_export_appointments_for_date g s e := by
  unfold get_and_export_appointments_for_date
  rw [h]

/-- Claim C3: a fetch failure on one day is absorbed inside that day's task —
the task still returns a normal result, with no artifact and the failure
logged as an error — and every other day's result is exactly what a
capability that does not fail on that day produces, so sibling artifacts are
unaffected. -/
theorem day_failure_isolated (f g : String → String → FetchOutcome)
    (strftime : Int → String) (s e : Int) (D : Nat) (p : Int × Int) (msg : String)
    (hp : (partitions s e)[D]? = some p)
    (hfail : f (strftime p.1) (strftime p.2) = FetchOutcome.exn msg)
    (hagree : ∀ i q, i ≠ D → (partitions s e)[i]? = some q →
        f (strftime q.1) (strftime q.2) = g (strftime q.1) (strftime q.2)) :
    (scheduler_run f strftime s e)[D]?
      = some { file := none
               logs := [LogEvent.infoStart (strftime p.1) (strftime p.2),
                        LogEvent.errorApiCall (strftime p.1) (strftime p.2) msg] } ∧
    (∀ i, i ≠ D →
        (scheduler_run f strftime s e)[i]? = (scheduler_run g strftime s e)[i]?) := by
  constructor
  · rw [scheduler_run, List.getElem?_map, hp]
    simp [get_and_export_appointments_for_date, hfail]
  · intro i hi
    rw [scheduler_run, scheduler_run, List.getElem?_map, List.getElem?_map]
    rcases hq : (partitions s e)[i]? with _ | q
    · rfl
    · exact congrArg some
        (get_and_export_congr f g (strftime q.1) (strftime q.2) (hagree i q hi hq))

/-- Concrete instance of failure isolation: in a two-day run where the fetch
raises on the first day, the first day yields no artifact and an error log,
and the second day's result equals the one of a non-failing capability. -/
theorem day_failure_isolated_witness :
    (scheduler_run sampleFetchFail sampleStrftime 0 172800)[0]?
      = some { file := none
               logs := [LogEvent.infoStart "a" "b",
                        LogEvent.errorApiCall "a" "b" "boom"] } ∧
    (∀ i, i ≠ 0 →
        (scheduler_run sampleFetchFail sampleStrftime 0 172800)[i]?
          = (scheduler_run sampleFetchOk sampleStrftime 0 172800)[i]?) := by
  have hp : (partitions 0 172800)[0]? = some ((0 : Int), (86400 : Int)) := by
    simp [partitions_step, oneDay]
  have hfail : sampleFetchFail (sampleStrftime 0) (sampleStrftime 86400)
      = FetchOutcome.exn "boom" := rfl
  have hagree : ∀ i q, i ≠ 0 → (partitions 0 172800)[i]? = some q →
      sampleFetchFail (sampleStrftime q.1) (sampleStrftime q.2)
        = sampleFetchOk (sampleStrftime q.1) (sampleStrftime q.2) := by
    intro i q hi hq
    match i with
    | 0 => exact absurd rfl hi
    | 1 =>
      have h1 : (partitions 0 172800)[1]? = some ((86400 : Int), (172800 : Int)) := by
        simp [partitions_step, oneDay]
      rw [h1] at hq
      cases Option.some.inj hq
      rfl
    | (n + 2) =>
      have hlen : (partitions 0 172800).length = 2 := by
        simp [partitions_step, oneDay]
      rw [List.getElem?_eq_none_iff.mpr (by omega)] at hq
      cases hq
  have h := day_failure_isolated sampleFetchFail sampleFetchOk sampleStrftime
      0 172800 0 (0, 86400) "boom" hp hfail hagree
  simpa [sampleStrftime] using h

/-- Claim C8: NavigateAPI.get_appointments never raises on a request failure —
a RequestException is caught internally and None is returned — so in the
composed pipeline a failed fetch reaches the day fetcher's empty-result
branch: no file, an informational empty-list log line, and no error log
line. -/
theorem request_exception_returns_none (api : NavigateAPI) (http : HttpResult)
    (msg : String) (s e : String) (hmsg : http = HttpResult.reqError msg) :
    NavigateAPI.get_appointments api http = none ∧
    (get_and_export_appointments_for_date
        (fun _x _y => FetchOutcome.ret (NavigateAPI.get_appointments api http)) s e).file
      = none ∧
    LogEvent.infoEmptyList s e ∈
      (get_and_export_appointments_for_date
        (fun _x _y => FetchOutcome.ret (NavigateAPI.get_appointments api http)) s e).logs ∧
    (get_and_export_appointments_for_date
        (fun _x _y =>
          FetchOutcome.ret (NavigateAPI.get_appointments api http)) s e).logs.countP
      is_error_event = 0 := by
  subst hmsg
  have hnone : NavigateAPI.get_appointments api (HttpResult.reqError msg) = none := by
    unfold NavigateAPI.get_appointments
    split
    · rfl
    · rfl
  refine ⟨hnone, ?_, ?_, ?_⟩ <;>
    simp [get_and_export_appointments_for_date, hnone, pyTruthyList, is_error_event,
      List.countP_cons, List.countP_nil]

/-- Concrete instance of the caught-request-failure claim with loaded
credentials and a failing request. -/
theorem request_exception_returns_none_witness :
    NavigateAPI.get_appointments { username := some "u", api_key := some "k" }
        (HttpResult.reqError "x") = none ∧
    (get_and_export_appointments_for_date
        (fun _x _y => FetchOutcome.ret (NavigateAPI.get_appointments
          { username := some "u", api_key := some "k" }
          (HttpResult.reqError "x"))) "a" "b").file
      = none ∧
    LogEvent.infoEmptyList "a" "b" ∈
      (get_and_export_appointments_for_date
        (fun _x _y => FetchOutcome.ret (NavigateAPI.get_appointments
          { username := some "u", api_key := some "k" }
          (HttpResult.reqError "x"))) "a" "b").logs ∧
    (get_and_export_appointments_for_date
        (fun _x _y => FetchOutcome.ret (NavigateAPI.get_appointments
          { username := some "u", api_key := some "k" }
          (HttpResult.reqError "x"))) "a" "b").logs.countP
      is_error_event = 0 :=
  request_exception_returns_none { username := some "u", api_key := some "k" }
    (HttpResult.reqError "x") "x" "a" "b" rfl

/-- Claim C10: the day fetcher's branch that logs "No appointments found" for
a non-empty response whose projection is empty is unreachable — whatever the
fetch capability returns, that log line is never emitted, because the
projection preserves the length of a non-empty response. -/
theorem no_appointments_branch_unreachable
    (fetch : String → String → FetchOutcome) (s e : String) :
    (get_and_export_appointments_for_date fetch s e).logs.countP
      is_no_appointments_event = 0 := by
  rcases hf : fetch s e with response | msg
  · rcases response with _ | records
    · simp [get_and_export_appointments_for_date, hf, pyTruthyList,
        is_no_appointments_event, List.countP_cons, List.countP_nil]
    · cases records with
      | nil =>
        simp [get_and_export_appointments_for_date, hf, pyTruthyList,
          is_no_appointments_event, List.countP_cons, List.countP_nil]
      | cons r rs =>
        simp [get_and_export_appointments_for_date, hf, pyTruthyList,
          extract_appointment_data, export_to_csv, is_no_appointments_event,
          List.countP_cons, List.countP_nil]
  · simp [get_and_export_appointments_for_date, hf, is_no_appointments_event,
      List.countP_cons, List.countP_nil]
